import Mathlib

/-!
Shallow embedding of `src/app.js` (a small Express REST API for tweets and
accounts) and proofs about it.

Modelling conventions:
* JavaScript runtime values are modelled by `JsVal`; an object is an ordered
  association list of string keys (JS object keys are unique and ordered, and
  `Object.assign` overwrites an existing key in place and appends new keys).
* `undefined` is `JsVal.undefined`; reading a property of `undefined` is a thrown
  `TypeError`, modelled by `Option` (`none` = throw).  Reading a property of a
  primitive yields `undefined`.
* The in-memory store lives in `blackbox/store.js`, which is not part of
  `src/`; it is modelled from the spec (section 6, store adapter contract).
* `express.static` and `bodyParser` are outside the specified core (spec
  section 1 excludes static file serving; request bodies arrive already
  parsed as a `JsVal`), so the modelled middleware chain starts at the logger.
-/

namespace TweetApp

/-- JavaScript values as they occur in this app: undefined, numbers (ids are
natural numbers here), strings, booleans, ordered-field objects and arrays. -/
inductive JsVal where
  | undefined : JsVal
  | num : Nat → JsVal
  | str : String → JsVal
  | bool : Bool → JsVal
  | obj : List (String × JsVal) → JsVal
  | arr : List JsVal → JsVal

/-- First value bound to key `k` in an object's field list, `none` if absent. -/
def getKey {α : Type} : List (String × α) → String → Option α
  | [], _ => none
  | (k', v') :: rest, k => if k' == k then some v' else getKey rest k

/-- JS property read on an object's field list: a missing key yields
`undefined`. -/
def fieldD (fs : List (String × JsVal)) (k : String) : JsVal :=
  (getKey fs k).getD .undefined

/-- JS property write on a field list: overwrite the first occurrence of the
key in place, or append the key at the end (JS object key order). -/
def setKey {α : Type} : List (String × α) → String → α → List (String × α)
  | [], k, v => [(k, v)]
  | (k', v') :: rest, k, v =>
      if k' == k then (k, v) :: rest else (k', v') :: setKey rest k v

/-- JS property read `v.k`: on objects via `fieldD`; on `undefined` a thrown
`TypeError` (`none`); on other primitives and arrays `undefined`. -/
def getProp : JsVal → String → Option JsVal
  | .obj fs, k => some (fieldD fs k)
  | .undefined, _ => none
  | _, _ => some .undefined

/-- JS property assignment `v.k = x`: effective on objects, ignored on other
values (no claim exercises strict-mode assignment to a primitive). -/
def setField : JsVal → String → JsVal → JsVal
  | .obj fs, k, v => .obj (setKey fs k v)
  | other, _, _ => other

/-- String coercion used by JS string concatenation `"..." + v`.  Array
stringification (element join) is abbreviated to the empty-array form; the
app only ever concatenates ids (numbers). -/
def jsStr : JsVal → String
  | .undefined => "undefined"
  | .num n => toString n
  | .str s => s
  | .bool b => if b then "true" else "false"
  | .obj _ => "[object Object]"
  | .arr _ => ""

/-- Semantics of `Object.assign(base, overrides)` on field lists: fold the
override fields into the base, left to right. -/
def assignFields {α : Type} (base : List (String × α)) (over : List (String × α)) :
    List (String × α) :=
  over.foldl (fun acc p => setKey acc p.1 p.2) base

/-- Semantics of `Object.assign({}, v, overrides)`: a fresh object holding
`v`'s fields (none for a primitive `v`) updated by the overrides. -/
def objAssign (v : JsVal) (over : List (String × JsVal)) : JsVal :=
  match v with
  | .obj fs => .obj (assignFields fs over)
  | _ => .obj (assignFields [] over)

/-- Embedding of `tweetJSON` (src/app.js lines 77-83):
`Object.assign({}, tweet, { href: "http://localhost:3000/tweets/" + tweet.id,
account: tweet.account.id,
accounthref: "http://localhost:3000/accounts/" + tweet.account.id })`.
Property reads happen in source-literal order; any read on `undefined`
throws (`none`). -/
def tweetJSON (tweet : JsVal) : Option JsVal := do
  let tid ← getProp tweet "id"
  let acc ← getProp tweet "account"
  let accId ← getProp acc "id"
  some (objAssign tweet
    [("href", .str ("http://localhost:3000/tweets/" ++ jsStr tid)),
     ("account", accId),
     ("accounthref", .str ("http://localhost:3000/accounts/" ++ jsStr accId))])

/-- Semantics of `Array.prototype.map` with a possibly-throwing callback:
`none` as soon as one element throws. -/
def mapJson (f : JsVal → Option JsVal) : List JsVal → Option (List JsVal)
  | [] => some []
  | t :: ts =>
      match f t, mapJson f ts with
      | some j, some js => some (j :: js)
      | _, _ => none

/-- Embedding of `tweetCollectionJSON` (src/app.js lines 103-105):
`tweets.map(tweetJSON)`; calling `.map` on a non-array throws. -/
def tweetCollectionJSON (tweets : JsVal) : Option JsVal :=
  match tweets with
  | .arr ts => (mapJson tweetJSON ts).map .arr
  | _ => none

/-- Embedding of `accountJSON` (src/app.js lines 90-96):
`Object.assign({}, account, { tweetshref: ".../accounts/" + account.id + "/tweets",
tweets: tweetCollectionJSON(account.tweets), href: ".../accounts/" + account.id })`. -/
def accountJSON (account : JsVal) : Option JsVal := do
  let aid ← getProp account "id"
  let tws ← getProp account "tweets"
  let tj ← tweetCollectionJSON tws
  some (objAssign account
    [("tweetshref", .str ("http://localhost:3000/accounts/" ++ jsStr aid ++ "/tweets")),
     ("tweets", tj),
     ("href", .str ("http://localhost:3000/accounts/" ++ jsStr aid))])

/-- Embedding of `accountCollectionJSON` (src/app.js lines 112-114):
`accounts.map(accountJSON)`. -/
def accountCollectionJSON (accounts : JsVal) : Option JsVal :=
  match accounts with
  | .arr ts => (mapJson accountJSON ts).map .arr
  | _ => none

/-! ## Store adapter

Modelled from the spec: `blackbox/store.js` is not part of `src/`; section 6
gives its contract (`select(kind)` = ordered sequence of all entities of the
kind, `select(kind, id)` = the entity with that id (an absent id surfaces as
an eventual failure, modelled as `undefined` flowing into the caller),
`insert` assigns a fresh unique id and stores the entity, `replace`
overwrites the entity's fields, `remove` deletes it). -/

/-- In-memory store: ordered lists of tweet and account entities, plus the
next fresh id. -/
structure Store where
  tweets : List JsVal
  accounts : List JsVal
  nextId : Nat

/-- Modelled from the spec: entity/id matching for `select(kind, id)`.  Ids
are numeric; JS loose equality between a string route parameter and a numeric
id is modelled by decimal parsing. -/
def entityIdMatch (e : JsVal) (idv : JsVal) : Bool :=
  match e with
  | .obj fs =>
      match fieldD fs "id", idv with
      | .num n, .num m => n == m
      | .num n, .str s => s.toNat? == some n
      | _, _ => false
  | _ => false

/-- Entity list for a kind name (only "tweets" and "accounts" occur). -/
def Store.listOf (st : Store) (kind : String) : List JsVal :=
  if kind == "tweets" then st.tweets else st.accounts

/-- Modelled from the spec: `select(kind)` returns the ordered sequence of
all entities of the kind (a JS array). -/
def Store.selectAll (st : Store) (kind : String) : JsVal :=
  .arr (st.listOf kind)

/-- Modelled from the spec: `select(kind, id)` returns the entity with that
id; an absent id yields `undefined` (the failure then surfaces at the first
property access, spec section 7). -/
def Store.select (st : Store) (kind : String) (idv : JsVal) : JsVal :=
  ((st.listOf kind).find? (fun e => entityIdMatch e idv)).getD .undefined

/-- Modelled from the spec: `insert(kind, entity)` assigns the fresh id
`st.nextId` to the entity's `id` field, appends it to the kind's list and
returns the id together with the updated store. -/
def Store.insert (st : Store) (kind : String) (e : JsVal) : Nat × Store :=
  let e2 := setField e "id" (.num st.nextId)
  (st.nextId,
    if kind == "tweets" then
      { st with tweets := st.tweets ++ [e2], nextId := st.nextId + 1 }
    else
      { st with accounts := st.accounts ++ [e2], nextId := st.nextId + 1 })

/-- Modelled from the spec: `remove(kind, id)` deletes the entity with that
id. -/
def Store.remove (st : Store) (kind : String) (idv : JsVal) : Store :=
  if kind == "tweets" then
    { st with tweets := st.tweets.filter (fun e => !entityIdMatch e idv) }
  else
    { st with accounts := st.accounts.filter (fun e => !entityIdMatch e idv) }

/-- Modelled from the spec: `replace(kind, id, fields)` overwrites the
matching entity's fields with the given ones, keeping its id. -/
def Store.replaceAt (st : Store) (kind : String) (idv : JsVal) (body : JsVal) :
    Store :=
  let upd : JsVal → JsVal := fun e =>
    if entityIdMatch e idv then
      setField body "id" ((getProp e "id").getD .undefined)
    else e
  if kind == "tweets" then
    { st with tweets := st.tweets.map upd }
  else
    { st with accounts := st.accounts.map upd }

/-! ## Requests, responses, middleware and routes -/

/-- Parsed request path.  The five express routes carry their `:id` parameter
as the raw string segment; `other` stands for any path matching no route. -/
inductive ApiPath where
  | tweets : ApiPath
  | tweetsId : String → ApiPath
  | accounts : ApiPath
  | accountsId : String → ApiPath
  | accountsIdTweets : String → ApiPath
  | other : String → ApiPath

/-- An HTTP request as the app consumes it: method, parsed path, the three
headers the middleware reads (`req.get` returns `none` for an absent
header), and the parsed JSON body. -/
structure Request where
  method : String
  path : ApiPath
  acceptVersion : Option String
  contentType : Option String
  accept : Option String
  body : JsVal

/-- Response body: none (`res.end()`), plain text (`res.send(string)`), or
JSON (`res.json(v)`). -/
inductive RBody where
  | empty : RBody
  | text : String → RBody
  | json : JsVal → RBody

/-- An HTTP response: status code and body. -/
structure Response where
  status : Nat
  body : RBody

/-- A failure forwarded to the express error handlers: message, optional
`status` attribute, and the diagnostic detail (`err.stack`). -/
structure Err where
  message : String
  status : Option Nat
  stack : String

/-- The thrown `TypeError` from a property access on `undefined` (or `.map`
on a non-array); it carries no `status` attribute. -/
def typeError : Err :=
  { message := "TypeError", status := none, stack := "TypeError" }

/-- Instrumentation events: what ran, in execution order.  `dispatched`
marks control passing from the middleware gates into the route layer. -/
inductive Event where
  | logged : Event
  | versionGate : Event
  | contentGate : Event
  | dispatched : Event
  | handler : Event
deriving DecidableEq

/-- Version gate condition (src/app.js lines 37-46): the request is blocked
iff `Accept-Version` is present and differs from "1.0". -/
def versionBlocked (req : Request) : Bool :=
  match req.acceptVersion with
  | some v => v != "1.0"
  | none => false

/-- True iff the character list `pat` occurs contiguously in `l`. -/
def startsWithL : List Char → List Char → Bool
  | _, [] => true
  | [], _ :: _ => false
  | a :: as, b :: bs => a == b && startsWithL as bs

/-- Substring occurrence on character lists. -/
def hasSubL : List Char → List Char → Bool
  | [], p => startsWithL [] p
  | l@(_ :: rest), p => startsWithL l p || hasSubL rest p

/-- Substring occurrence on strings (semantics of `/pat/.test(s)` for a
literal pattern). -/
def hasSub (s pat : String) : Bool :=
  hasSubL s.data pat.data

/-- Mutating-verb test, `['POST', 'PUT'].indexOf(req.method) > -1`. -/
def isMutating (m : String) : Bool :=
  m == "POST" || m == "PUT"

/-- Content-Type test `/application\/json/.test(req.get('Content-Type'))`:
an absent header never matches (the regex sees the string "undefined"). -/
def ctypeIsJson (h : Option String) : Bool :=
  match h with
  | some s => hasSub s "application/json"
  | none => false

/-- Modelled from the spec: express's `req.accepts('json')` — an absent
`Accept` header accepts everything; otherwise the declared media types must
include JSON (directly or through a wildcard). -/
def acceptsJson (h : Option String) : Bool :=
  match h with
  | some s => hasSub s "json" || hasSub s "*/*" || hasSub s "application/*"
  | none => true

/-- Content negotiation gate (src/app.js lines 49-62): `some resp` when the
gate terminates the request, `none` when it calls `next()`. -/
def contentGateResult (req : Request) : Option Response :=
  if isMutating req.method && !ctypeIsJson req.contentType then
    some { status := 415, body := .text "wrong Content-Type" }
  else if !acceptsJson req.accept then
    some { status := 406,
           body := .text "response of application/json only supported, please accept this" }
  else
    none

/-! ## Route handlers

Each handler mirrors its registration in src/app.js.  A handler returns the
store (mutations persist even when a later expression throws) and either a
response or a thrown failure. -/

/-- Handler result: possibly-updated store, and response or thrown error. -/
abbrev HResult := Store × Except Err Response

/-- GET /tweets (lines 116-119): `res.json(tweetCollectionJSON(store.select('tweets')))`. -/
def getTweetsH (st : Store) : HResult :=
  match tweetCollectionJSON (st.selectAll "tweets") with
  | some j => (st, .ok { status := 200, body := .json j })
  | none => (st, .error typeError)

/-- POST /tweets (lines 121-132): resolve `tweet.account` against the store,
insert, re-select the stored tweet, answer 201 with its `tweetJSON`. -/
def postTweetsH (st : Store) (body : JsVal) : HResult :=
  match getProp body "account" with
  | none => (st, .error typeError)
  | some accIdv =>
      let acc := st.select "accounts" accIdv
      let tweet := setField body "account" acc
      let (id, st2) := st.insert "tweets" tweet
      let storedTweet := st2.select "tweets" (.num id)
      match tweetJSON storedTweet with
      | some j => (st2, .ok { status := 201, body := .json j })
      | none => (st2, .error typeError)

/-- GET /tweets/:id (lines 135-138). -/
def getTweetH (st : Store) (idp : String) : HResult :=
  match tweetJSON (st.select "tweets" (.str idp)) with
  | some j => (st, .ok { status := 200, body := .json j })
  | none => (st, .error typeError)

/-- DELETE /tweets/:id (lines 140-143). -/
def deleteTweetH (st : Store) (idp : String) : HResult :=
  (st.remove "tweets" (.str idp), .ok { status := 200, body := .empty })

/-- PUT /tweets/:id (lines 145-148). -/
def putTweetH (st : Store) (idp : String) (body : JsVal) : HResult :=
  (st.replaceAt "tweets" (.str idp) body, .ok { status := 200, body := .empty })

/-- GET /accounts (lines 150-153). -/
def getAccountsH (st : Store) : HResult :=
  match accountCollectionJSON (st.selectAll "accounts") with
  | some j => (st, .ok { status := 200, body := .json j })
  | none => (st, .error typeError)

/-- POST /accounts (lines 155-160). -/
def postAccountsH (st : Store) (body : JsVal) : HResult :=
  let (id, st2) := st.insert "accounts" body
  match accountJSON (st2.select "accounts" (.num id)) with
  | some j => (st2, .ok { status := 201, body := .json j })
  | none => (st2, .error typeError)

/-- GET /accounts/:id (lines 163-166). -/
def getAccountH (st : Store) (idp : String) : HResult :=
  match accountJSON (st.select "accounts" (.str idp)) with
  | some j => (st, .ok { status := 200, body := .json j })
  | none => (st, .error typeError)

/-- DELETE /accounts/:id (lines 168-171). -/
def deleteAccountH (st : Store) (idp : String) : HResult :=
  (st.remove "accounts" (.str idp), .ok { status := 200, body := .empty })

/-- GET /accounts/:id/tweets (lines 173-176). -/
def getAccountTweetsH (st : Store) (idp : String) : HResult :=
  match getProp (st.select "accounts" (.str idp)) "tweets" with
  | none => (st, .error typeError)
  | some tws =>
      match tweetCollectionJSON tws with
      | some j => (st, .ok { status := 200, body := .json j })
      | none => (st, .error typeError)

/-- PUT /accounts/:id (lines 178-181). -/
def putAccountH (st : Store) (idp : String) (body : JsVal) : HResult :=
  (st.replaceAt "accounts" (.str idp) body, .ok { status := 200, body := .empty })

/-- Route table (registration order in src/app.js): `some` runs the matched
handler, `none` means no route matches the (method, path) pair. -/
def dispatch (st : Store) (req : Request) : Option HResult :=
  match req.method, req.path with
  | "GET", .tweets => some (getTweetsH st)
  | "POST", .tweets => some (postTweetsH st req.body)
  | "GET", .tweetsId idp => some (getTweetH st idp)
  | "DELETE", .tweetsId idp => some (deleteTweetH st idp)
  | "PUT", .tweetsId idp => some (putTweetH st idp req.body)
  | "GET", .accounts => some (getAccountsH st)
  | "POST", .accounts => some (postAccountsH st req.body)
  | "GET", .accountsId idp => some (getAccountH st idp)
  | "DELETE", .accountsId idp => some (deleteAccountH st idp)
  | "GET", .accountsIdTweets idp => some (getAccountTweetsH st idp)
  | "PUT", .accountsId idp => some (putAccountH st idp req.body)
  | _, _ => none

/-! ## Error funnel and full pipeline -/

/-- Operating mode (`app.get('env')`): development registers the verbose
error handler, production the quiet one. -/
inductive Env where
  | development : Env
  | production : Env

/-- Terminal error responder (src/app.js lines 200-223): status from the
failure's `status` attribute (default 500), JSON body with the
message; `error.error` is the diagnostic detail in development and the empty
object in production. -/
def errorResponse (env : Env) (e : Err) : Response :=
  { status := e.status.getD 500,
    body := .json (.obj
      [("error", .obj
        [("message", .str e.message),
         ("error", match env with
          | .development => .str e.stack
          | .production => .obj [])])]) }

/-- The synthesized failure of the 404 catch-all (src/app.js lines 190-194). -/
def notFoundErr : Err :=
  { message := "Not Found", status := some 404, stack := "" }

/-- The whole request pipeline of src/app.js: logger, version gate, content
negotiation gate, route dispatch, 404 catch-all, error responder.  Returns
the response, the resulting store, and the instrumentation event trace in
execution order. -/
def runApp (env : Env) (st : Store) (req : Request) :
    Response × Store × List Event :=
  if versionBlocked req then
    ({ status := 406, body := .text "Accept-Version cannot be fulfilled" },
      st, [.logged, .versionGate])
  else
    match contentGateResult req with
    | some resp => (resp, st, [.logged, .versionGate, .contentGate])
    | none =>
        match dispatch st req with
        | some (st', .ok resp) =>
            (resp, st', [.logged, .versionGate, .contentGate, .dispatched, .handler])
        | some (st', .error e) =>
            (errorResponse env e, st',
              [.logged, .versionGate, .contentGate, .dispatched, .handler])
        | none =>
            (errorResponse env notFoundErr, st,
              [.logged, .versionGate, .contentGate, .dispatched])

/-! ## Reference-level embedding of the representation mapper

The `JsVal` embedding is pure by construction, so it cannot even express the
spec sentence "must not mutate the original entity".  This second embedding
of the same source lines makes object identity and mutation observable: a
value can be a reference into a heap of objects, property writes are heap
updates, and `Object.assign({}, src, over)` allocates a fresh object and
writes only to it.  Tweet-account cycles are representable here. -/

/-- Heap-level JS values: primitives, references into the heap, arrays. -/
inductive HVal where
  | undefined : HVal
  | num : Nat → HVal
  | str : String → HVal
  | ref : Nat → HVal
  | arr : List HVal → HVal

/-- The object heap: index `r` holds the field list of object `ref r`. -/
structure Heap where
  objs : List (List (String × HVal))

/-- Field read with the JS missing-key-is-undefined rule. -/
def fieldDH (fs : List (String × HVal)) (k : String) : HVal :=
  (getKey fs k).getD .undefined

/-- Heap-level property read `v.k`: dereference, then field read; reading on
`undefined` (or a dangling reference) throws. -/
def getPropH (h : Heap) : HVal → String → Option HVal
  | .ref r, k => (h.objs.get? r).map (fun fs => fieldDH fs k)
  | .undefined, _ => none
  | _, _ => some .undefined

/-- String coercion for heap-level values (arrays abbreviated as in `jsStr`). -/
def hvStr : HVal → String
  | .undefined => "undefined"
  | .num n => toString n
  | .str s => s
  | .ref _ => "[object Object]"
  | .arr _ => ""

/-- Allocate a fresh object at the end of the heap; returns its reference. -/
def Heap.alloc (h : Heap) (fs : List (String × HVal)) : Heap × Nat :=
  ({ objs := h.objs ++ [fs] }, h.objs.length)

/-- Own enumerable fields of a value as `Object.assign` would copy them
(primitives contribute none). -/
def heapFieldsOf (h : Heap) (v : HVal) : List (String × HVal) :=
  match v with
  | .ref r => (h.objs.get? r).getD []
  | _ => []

/-- Heap-level embedding of `tweetJSON` (src/app.js lines 77-83): read
`tweet.id`, `tweet.account`, `tweet.account.id` in source order, then
allocate the `Object.assign({}, tweet, overrides)` result as a fresh
object.  No existing object is written. -/
def tweetJSONHeap (h : Heap) (t : HVal) : Option (Heap × HVal) := do
  let tid ← getPropH h t "id"
  let acc ← getPropH h t "account"
  let accId ← getPropH h acc "id"
  let fs := assignFields (heapFieldsOf h t)
    [("href", .str ("http://localhost:3000/tweets/" ++ hvStr tid)),
     ("account", accId),
     ("accounthref", .str ("http://localhost:3000/accounts/" ++ hvStr accId))]
  let ar := h.alloc fs
  some (ar.1, .ref ar.2)

/-- Heap-level `tweets.map(tweetJSON)`: thread the heap left to right,
allocating one projection per element. -/
def mapTweetsHeap : Heap → List HVal → Option (Heap × List HVal)
  | h, [] => some (h, [])
  | h, t :: ts =>
      match tweetJSONHeap h t with
      | none => none
      | some (h1, v) =>
          match mapTweetsHeap h1 ts with
          | none => none
          | some (h2, vs) => some (h2, v :: vs)

/-- Heap-level embedding of `accountJSON` (src/app.js lines 90-96): reads in
source-literal order (`account.id`, `account.tweets`, the element-wise
projection, `account.id` again), then allocate the assigned copy. -/
def accountJSONHeap (h : Heap) (a : HVal) : Option (Heap × HVal) := do
  let aid ← getPropH h a "id"
  let tws ← getPropH h a "tweets"
  let mapped ←
    match tws with
    | .arr ts => mapTweetsHeap h ts
    | _ => none
  let aid2 ← getPropH mapped.1 a "id"
  let fs := assignFields (heapFieldsOf mapped.1 a)
    [("tweetshref", .str ("http://localhost:3000/accounts/" ++ hvStr aid ++ "/tweets")),
     ("tweets", .arr mapped.2),
     ("href", .str ("http://localhost:3000/accounts/" ++ hvStr aid2))]
  let ar := mapped.1.alloc fs
  some (ar.1, .ref ar.2)

/-! ## Helper lemmas -/

theorem getKey_setKey_self {α : Type} (fs : List (String × α)) (k : String) (v : α) :
    getKey (setKey fs k v) k = some v := by
  induction fs with
  | nil => simp [setKey, getKey]
  | cons p rest ih =>
      obtain ⟨k', v'⟩ := p
      by_cases h : k' = k
      · subst h
        simp [setKey, getKey]
      · simp [setKey, getKey, h, ih]

theorem getKey_setKey_ne {α : Type} (fs : List (String × α)) (k k' : String) (v : α)
    (h : k' ≠ k) : getKey (setKey fs k v) k' = getKey fs k' := by
  induction fs with
  | nil => simp [setKey, getKey, Ne.symm h]
  | cons p rest ih =>
      obtain ⟨a, b⟩ := p
      by_cases ha : a = k
      · subst ha
        simp [setKey, getKey, Ne.symm h]
      · simp [setKey, getKey, ha, ih]

theorem fieldD_setKey_self (fs : List (String × JsVal)) (k : String) (v : JsVal) :
    fieldD (setKey fs k v) k = v := by
  simp [fieldD, getKey_setKey_self]

theorem fieldD_setKey_ne (fs : List (String × JsVal)) (k k' : String) (v : JsVal)
    (h : k' ≠ k) : fieldD (setKey fs k v) k' = fieldD fs k' := by
  simp [fieldD, getKey_setKey_ne _ _ _ _ h]

theorem assignFields_three {α : Type} (fs : List (String × α)) (a b c : String)
    (x y z : α) :
    assignFields fs [(a, x), (b, y), (c, z)] = setKey (setKey (setKey fs a x) b y) c z :=
  rfl

theorem mapJson_spec (f : JsVal → Option JsVal) :
    ∀ (ts js : List JsVal), mapJson f ts = some js →
      js.length = ts.length ∧ ∀ i : Nat, js[i]? = (ts[i]?).bind f := by
  intro ts
  induction ts with
  | nil =>
      intro js h
      simp [mapJson] at h
      subst h
      refine ⟨rfl, ?_⟩
      intro i
      simp
  | cons t rest ih =>
      intro js h
      cases hft : f t with
      | none => simp [mapJson, hft] at h
      | some j =>
          cases hmt : mapJson f rest with
          | none => simp [mapJson, hft, hmt] at h
          | some js' =>
              simp [mapJson, hft, hmt] at h
              subst h
              obtain ⟨hlen, hget⟩ := ih js' hmt
              refine ⟨by simp [hlen], ?_⟩
              intro i
              cases i with
              | zero => simp [hft]
              | succ n => simpa using hget n

theorem tweetJSON_obj (gs accFs : List (String × JsVal)) (tid aid : JsVal)
    (hid : fieldD gs "id" = tid)
    (hacc : fieldD gs "account" = .obj accFs)
    (haid : fieldD accFs "id" = aid) :
    tweetJSON (.obj gs) =
      some (objAssign (.obj gs)
        [("href", .str ("http://localhost:3000/tweets/" ++ jsStr tid)),
         ("account", aid),
         ("accounthref", .str ("http://localhost:3000/accounts/" ++ jsStr aid))]) := by
  have e1 : getProp (.obj gs) "id" = some tid := by
    show some (fieldD gs "id") = some tid
    rw [hid]
  have e2 : getProp (.obj gs) "account" = some (.obj accFs) := by
    show some (fieldD gs "account") = some (JsVal.obj accFs)
    rw [hacc]
  have e3 : getProp (.obj accFs) "id" = some aid := by
    show some (fieldD accFs "id") = some aid
    rw [haid]
  simp only [tweetJSON, e1, e2, e3, Option.bind_eq_bind, Option.some_bind]

theorem find?_append_last {α : Type} (p : α → Bool) (l : List α) (x : α)
    (hl : ∀ a ∈ l, p a = false) (hx : p x = true) :
    (l ++ [x]).find? p = some x := by
  rw [List.find?_append]
  have hnone : l.find? p = none := by
    rw [List.find?_eq_none]
    intro a ha
    simp [hl a ha]
  simp [hnone, List.find?, hx]

theorem getElem?_of_isPrefix {α : Type} {l l' : List α} (h : l <+: l') {r : Nat}
    (hr : r < l.length) : l'[r]? = l[r]? := by
  obtain ⟨t, rfl⟩ := h
  exact List.getElem?_append_left hr

theorem tweetJSONHeap_frame (h : Heap) (t : HVal) (h' : Heap) (v : HVal)
    (hs : tweetJSONHeap h t = some (h', v)) : ∃ fs, h'.objs = h.objs ++ [fs] := by
  cases e1 : getPropH h t "id" with
  | none => simp [tweetJSONHeap, e1] at hs
  | some tid =>
      cases e2 : getPropH h t "account" with
      | none => simp [tweetJSONHeap, e1, e2] at hs
      | some acc =>
          cases e3 : getPropH h acc "id" with
          | none => simp [tweetJSONHeap, e1, e2, e3] at hs
          | some accId =>
              simp [tweetJSONHeap, e1, e2, e3, Heap.alloc] at hs
              exact ⟨_, (congrArg Heap.objs hs.1.symm)⟩

theorem mapTweetsHeap_frame :
    ∀ (ts : List HVal) (h h' : Heap) (vs : List HVal),
      mapTweetsHeap h ts = some (h', vs) → h.objs <+: h'.objs := by
  intro ts
  induction ts with
  | nil =>
      intro h h' vs hs
      simp [mapTweetsHeap] at hs
      rw [hs.1]
  | cons t rest ih =>
      intro h h' vs hs
      cases e1 : tweetJSONHeap h t with
      | none => simp [mapTweetsHeap, e1] at hs
      | some p =>
          obtain ⟨h1, v⟩ := p
          cases e2 : mapTweetsHeap h1 rest with
          | none => simp [mapTweetsHeap, e1, e2] at hs
          | some q =>
              obtain ⟨h2, vs'⟩ := q
              simp [mapTweetsHeap, e1, e2] at hs
              obtain ⟨fs, hfs⟩ := tweetJSONHeap_frame h t h1 v e1
              have pre1 : h.objs <+: h1.objs := ⟨[fs], hfs.symm⟩
              have pre2 : h1.objs <+: h2.objs := ih h1 h2 vs' e2
              have : h.objs <+: h2.objs := pre1.trans pre2
              rw [hs.1] at this
              exact this

theorem accountJSONHeap_frame (h : Heap) (a : HVal) (h' : Heap) (v : HVal)
    (hs : accountJSONHeap h a = some (h', v)) : h.objs <+: h'.objs := by
  cases e1 : getPropH h a "id" with
  | none => simp [accountJSONHeap, e1] at hs
  | some aid =>
      cases e2 : getPropH h a "tweets" with
      | none => simp [accountJSONHeap, e1, e2] at hs
      | some tws =>
          cases tws with
          | arr ts =>
              cases e3 : mapTweetsHeap h ts with
              | none => simp [accountJSONHeap, e1, e2, e3] at hs
              | some mp =>
                  obtain ⟨h1, vs⟩ := mp
                  cases e4 : getPropH h1 a "id" with
                  | none => simp [accountJSONHeap, e1, e2, e3, e4] at hs
                  | some aid2 =>
                      simp [accountJSONHeap, e1, e2, e3, e4, Heap.alloc] at hs
                      have pre1 : h.objs <+: h1.objs := mapTweetsHeap_frame ts h h1 vs e3
                      have pre2 : h1.objs <+: h'.objs := by
                        rw [← hs.1]
                        exact ⟨_, rfl⟩
                      exact pre1.trans pre2
          | undefined => simp [accountJSONHeap, e1, e2] at hs
          | num n => simp [accountJSONHeap, e1, e2] at hs
          | str s => simp [accountJSONHeap, e1, e2] at hs
          | ref r => simp [accountJSONHeap, e1, e2] at hs

theorem runApp_blocked (env : Env) (st : Store) (req : Request)
    (h : versionBlocked req = true) :
    runApp env st req =
      ({ status := 406, body := .text "Accept-Version cannot be fulfilled" }, st,
        [.logged, .versionGate]) := by
  simp [runApp, h]

theorem runApp_contentStop (env : Env) (st : Store) (req : Request) (resp : Response)
    (h : versionBlocked req = false) (hc : contentGateResult req = some resp) :
    runApp env st req = (resp, st, [.logged, .versionGate, .contentGate]) := by
  simp [runApp, h, hc]

theorem runApp_notFound (env : Env) (st : Store) (req : Request)
    (h : versionBlocked req = false) (hc : contentGateResult req = none)
    (hd : dispatch st req = none) :
    runApp env st req =
      (errorResponse env notFoundErr, st,
        [.logged, .versionGate, .contentGate, .dispatched]) := by
  simp [runApp, h, hc, hd]

theorem runApp_handlerOk (env : Env) (st st' : Store) (req : Request) (resp : Response)
    (h : versionBlocked req = false) (hc : contentGateResult req = none)
    (hd : dispatch st req = some (st', .ok resp)) :
    runApp env st req =
      (resp, st', [.logged, .versionGate, .contentGate, .dispatched, .handler]) := by
  simp [runApp, h, hc, hd]

theorem runApp_handlerErr (env : Env) (st st' : Store) (req : Request) (e : Err)
    (h : versionBlocked req = false) (hc : contentGateResult req = none)
    (hd : dispatch st req = some (st', .error e)) :
    runApp env st req =
      (errorResponse env e, st',
        [.logged, .versionGate, .contentGate, .dispatched, .handler]) := by
  simp [runApp, h, hc, hd]

/-! ## Claim theorems -/

/-- C4: for every request to any route, a present `Accept-Version` header
different from "1.0" makes the version gate terminate the request with
status 406 and a plain-text body; an absent header or the value "1.0" lets
the request continue to the next interceptor (the content gate runs). -/
theorem claim_C4 (env : Env) (st : Store) (req : Request) :
    ((∃ v, req.acceptVersion = some v ∧ v ≠ "1.0") →
       (runApp env st req).1 =
         { status := 406, body := .text "Accept-Version cannot be fulfilled" }) ∧
    ((req.acceptVersion = none ∨ req.acceptVersion = some "1.0") →
       Event.contentGate ∈ (runApp env st req).2.2) := by
  constructor
  · rintro ⟨v, hv, hne⟩
    have hb : versionBlocked req = true := by
      simp [versionBlocked, hv, hne]
    rw [runApp_blocked env st req hb]
  · intro h
    have hb : versionBlocked req = false := by
      rcases h with h | h <;> simp [versionBlocked, h]
    cases hc : contentGateResult req with
    | some resp =>
        rw [runApp_contentStop env st req resp hb hc]
        simp
    | none =>
        cases hd : dispatch st req with
        | none =>
            rw [runApp_notFound env st req hb hc hd]
            simp
        | some p =>
            obtain ⟨st', r⟩ := p
            cases r with
            | ok resp =>
                rw [runApp_handlerOk env st st' req resp hb hc hd]
                simp
            | error e =>
                rw [runApp_handlerErr env st st' req e hb hc hd]
                simp

/-- C7: a request passing both gates whose (method, path) matches no route
is answered through the error funnel with status 404 and a JSON body of
shape `error.message`/`error.error`; the terminal error responder takes the
status from the failure's `status` attribute (default 500), and in
production (quiet) mode `error.error` is always the empty object. -/
theorem claim_C7 :
    (∀ (st : Store) (req : Request), versionBlocked req = false →
       contentGateResult req = none → dispatch st req = none →
       (runApp .production st req).1 =
         { status := 404,
           body := .json (.obj [("error", .obj
             [("message", .str "Not Found"), ("error", .obj [])])]) }) ∧
    (∀ (env : Env) (e : Err), (errorResponse env e).status = e.status.getD 500) ∧
    (∀ e : Err, errorResponse .production e =
       { status := e.status.getD 500,
         body := .json (.obj [("error", .obj
           [("message", .str e.message), ("error", .obj [])])]) }) := by
  refine ⟨?_, ?_, ?_⟩
  · intro st req hv hc hd
    rw [runApp_notFound .production st req hv hc hd]
    rfl
  · intro env e
    rfl
  · intro e
    rfl

/-- C8: on every request the logger runs first, the version gate runs second
(before the content gate), the content gate and route layer only run in that
order, and whenever a route handler runs the full chain ran before it; a
request terminated by either gate runs no route handler. -/
theorem claim_C8 (env : Env) (st : Store) (req : Request) :
    ∃ tail, (runApp env st req).2.2 = Event.logged :: Event.versionGate :: tail ∧
      (versionBlocked req = true → tail = []) ∧
      (versionBlocked req = false → contentGateResult req ≠ none →
        tail = [Event.contentGate]) ∧
      (Event.handler ∈ (runApp env st req).2.2 →
        (runApp env st req).2.2 =
          [Event.logged, Event.versionGate, Event.contentGate,
           Event.dispatched, Event.handler]) ∧
      ((versionBlocked req = true ∨ contentGateResult req ≠ none) →
        Event.handler ∉ (runApp env st req).2.2) := by
  cases hb : versionBlocked req with
  | true =>
      rw [runApp_blocked env st req hb]
      exact ⟨[], rfl, fun _ => rfl, by simp [hb], by simp, by simp⟩
  | false =>
      cases hc : contentGateResult req with
      | some resp =>
          rw [runApp_contentStop env st req resp hb hc]
          refine ⟨[Event.contentGate], rfl, by simp [hb], fun _ _ => rfl, by simp, by simp⟩
      | none =>
          cases hd : dispatch st req with
          | none =>
              rw [runApp_notFound env st req hb hc hd]
              refine ⟨[Event.contentGate, Event.dispatched], rfl, by simp [hb],
                by simp [hc], by simp, by simp [hb, hc]⟩
          | some p =>
              obtain ⟨st', r⟩ := p
              cases r with
              | ok resp =>
                  rw [runApp_handlerOk env st st' req resp hb hc hd]
                  refine ⟨[Event.contentGate, Event.dispatched, Event.handler], rfl,
                    by simp [hb], by simp [hc], fun _ => rfl, by simp [hb, hc]⟩
              | error e =>
                  rw [runApp_handlerErr env st st' req e hb hc hd]
                  refine ⟨[Event.contentGate, Event.dispatched, Event.handler], rfl,
                    by simp [hb], by simp [hc], fun _ => rfl, by simp [hb, hc]⟩

/-- C1: for every tweet whose account field is a live account object,
`tweetJSON` succeeds and its result keeps every field of the tweet other
than the overridden `account` (which becomes `tweet.account.id`) and the two
added link fields `href` and `accounthref` (canonical URLs for the tweet and
its account). -/
theorem claim_C1 (fs accFs : List (String × JsVal))
    (hacc : fieldD fs "account" = .obj accFs) :
    ∃ r, tweetJSON (.obj fs) = some (.obj r) ∧
      (∀ k, k ≠ "href" → k ≠ "account" → k ≠ "accounthref" →
        fieldD r k = fieldD fs k) ∧
      fieldD r "account" = fieldD accFs "id" ∧
      fieldD r "href" =
        .str ("http://localhost:3000/tweets/" ++ jsStr (fieldD fs "id")) ∧
      fieldD r "accounthref" =
        .str ("http://localhost:3000/accounts/" ++ jsStr (fieldD accFs "id")) := by
  refine ⟨assignFields fs
      [("href", .str ("http://localhost:3000/tweets/" ++ jsStr (fieldD fs "id"))),
       ("account", fieldD accFs "id"),
       ("accounthref",
         .str ("http://localhost:3000/accounts/" ++ jsStr (fieldD accFs "id")))],
    ?_, ?_, ?_, ?_, ?_⟩
  · simp [tweetJSON, getProp, hacc, objAssign]
  · intro k h1 h2 h3
    rw [assignFields_three, fieldD_setKey_ne _ _ _ _ h3,
      fieldD_setKey_ne _ _ _ _ h2, fieldD_setKey_ne _ _ _ _ h1]
  · rw [assignFields_three, fieldD_setKey_ne _ _ _ _ (by decide), fieldD_setKey_self]
  · rw [assignFields_three, fieldD_setKey_ne _ _ _ _ (by decide),
      fieldD_setKey_ne _ _ _ _ (by decide), fieldD_setKey_self]
  · rw [assignFields_three, fieldD_setKey_self]

/-- C5: `accountJSON(a).tweets` is `tweetJSON` mapped over `a.tweets`,
preserving length and order (pointwise, the i-th output is `tweetJSON` of
the i-th input); the collection mappers `tweetCollectionJSON` and
`accountCollectionJSON` are likewise the element mapper mapped over the
array, preserving length and order. -/
theorem claim_C5 :
    (∀ (fs : List (String × JsVal)) (ts js : List JsVal),
       fieldD fs "tweets" = .arr ts → mapJson tweetJSON ts = some js →
       ∃ r, accountJSON (.obj fs) = some (.obj r) ∧ fieldD r "tweets" = .arr js ∧
         js.length = ts.length ∧ ∀ i : Nat, js[i]? = (ts[i]?).bind tweetJSON) ∧
    (∀ ts js : List JsVal, mapJson tweetJSON ts = some js →
       tweetCollectionJSON (.arr ts) = some (.arr js) ∧ js.length = ts.length ∧
         ∀ i : Nat, js[i]? = (ts[i]?).bind tweetJSON) ∧
    (∀ as bs : List JsVal, mapJson accountJSON as = some bs →
       accountCollectionJSON (.arr as) = some (.arr bs) ∧ bs.length = as.length ∧
         ∀ i : Nat, bs[i]? = (as[i]?).bind accountJSON) := by
  refine ⟨?_, ?_, ?_⟩
  · intro fs ts js hts hmap
    refine ⟨assignFields fs
        [("tweetshref",
           .str ("http://localhost:3000/accounts/" ++ jsStr (fieldD fs "id") ++ "/tweets")),
         ("tweets", .arr js),
         ("href", .str ("http://localhost:3000/accounts/" ++ jsStr (fieldD fs "id")))],
      ?_, ?_, (mapJson_spec _ ts js hmap).1, (mapJson_spec _ ts js hmap).2⟩
    · simp [accountJSON, getProp, hts, tweetCollectionJSON, hmap, objAssign]
    · rw [assignFields_three, fieldD_setKey_ne _ _ _ _ (by decide), fieldD_setKey_self]
  · intro ts js h
    exact ⟨by simp [tweetCollectionJSON, h], (mapJson_spec _ ts js h).1,
      (mapJson_spec _ ts js h).2⟩
  · intro as bs h
    exact ⟨by simp [accountCollectionJSON, h], (mapJson_spec _ as bs h).1,
      (mapJson_spec _ as bs h).2⟩

/-- C6: the representation mappers do not mutate their argument.  In the
reference-level embedding (where mutation is observable as a heap update),
every successful run of `tweetJSONHeap` or `accountJSONHeap` only extends
the heap with freshly allocated objects: every pre-existing object — in
particular the tweet, its account, and all their fields — is unchanged. -/
theorem claim_C6 :
    (∀ (h : Heap) (t : HVal) (h' : Heap) (v : HVal),
       tweetJSONHeap h t = some (h', v) →
       h.objs <+: h'.objs ∧
         ∀ r : Nat, r < h.objs.length → h'.objs[r]? = h.objs[r]?) ∧
    (∀ (h : Heap) (a : HVal) (h' : Heap) (v : HVal),
       accountJSONHeap h a = some (h', v) →
       h.objs <+: h'.objs ∧
         ∀ r : Nat, r < h.objs.length → h'.objs[r]? = h.objs[r]?) := by
  constructor
  · intro h t h' v hs
    obtain ⟨fs, hfs⟩ := tweetJSONHeap_frame h t h' v hs
    have pre : h.objs <+: h'.objs := ⟨[fs], hfs.symm⟩
    exact ⟨pre, fun r hr => getElem?_of_isPrefix pre hr⟩
  · intro h a h' v hs
    have pre := accountJSONHeap_frame h a h' v hs
    exact ⟨pre, fun r hr => getElem?_of_isPrefix pre hr⟩

/-- C3 counterexample: a POST whose `Accept` header excludes JSON but whose
`Content-Type` is also not JSON is terminated with status 415, not 406 — the
Content-Type check takes precedence, so the 406 branch is not independent of
it. -/
theorem claim_C3_counterexample :
    acceptsJson (some "text/html") = false ∧
    (runApp .production { tweets := [], accounts := [], nextId := 0 }
      { method := "POST", path := .tweets, acceptVersion := none,
        contentType := some "text/plain", accept := some "text/html",
        body := .obj [] }).1.status = 415 ∧
    ¬ (runApp .production { tweets := [], accounts := [], nextId := 0 }
      { method := "POST", path := .tweets, acceptVersion := none,
        contentType := some "text/plain", accept := some "text/html",
        body := .obj [] }).1.status = 406 := by
  refine ⟨rfl, rfl, by decide⟩

/-- C3 (amended): for requests past the version gate, a mutating request
with non-JSON `Content-Type` is terminated with 415 (this branch takes
precedence); a request not caught by the Content-Type branch whose `Accept`
excludes JSON is terminated with 406; any other request continues into the
route layer. -/
theorem claim_C3 (env : Env) (st : Store) (req : Request)
    (hv : versionBlocked req = false) :
    (isMutating req.method = true → ctypeIsJson req.contentType = false →
       (runApp env st req).1 = { status := 415, body := .text "wrong Content-Type" }) ∧
    ((isMutating req.method = false ∨ ctypeIsJson req.contentType = true) →
       acceptsJson req.accept = false →
       (runApp env st req).1 =
         { status := 406,
           body := .text "response of application/json only supported, please accept this" }) ∧
    ((isMutating req.method = false ∨ ctypeIsJson req.contentType = true) →
       acceptsJson req.accept = true →
       Event.dispatched ∈ (runApp env st req).2.2) := by
  refine ⟨?_, ?_, ?_⟩
  · intro hm hct
    have hc : contentGateResult req =
        some { status := 415, body := .text "wrong Content-Type" } := by
      simp [contentGateResult, hm, hct]
    rw [runApp_contentStop env st req _ hv hc]
  · intro hor hacc
    have hnot : (isMutating req.method && !ctypeIsJson req.contentType) = false := by
      rcases hor with h | h <;> simp [h]
    have hc : contentGateResult req =
        some { status := 406,
               body := .text "response of application/json only supported, please accept this" } := by
      simp [contentGateResult, hnot, hacc]
    rw [runApp_contentStop env st req _ hv hc]
  · intro hor hacc
    have hnot : (isMutating req.method && !ctypeIsJson req.contentType) = false := by
      rcases hor with h | h <;> simp [h]
    have hc : contentGateResult req = none := by
      simp [contentGateResult, hnot, hacc]
    cases hd : dispatch st req with
    | none =>
        rw [runApp_notFound env st req hv hc hd]
        simp
    | some p =>
        obtain ⟨st', r⟩ := p
        cases r with
        | ok resp =>
            rw [runApp_handlerOk env st st' req resp hv hc hd]
            simp
        | error e =>
            rw [runApp_handlerErr env st st' req e hv hc hd]
            simp

/-- C2: POSTing to /tweets a body whose `account` field is the id of an
account present in the store replaces that id with the live account object
before insertion, answers 201 with the `tweetJSON` of the stored tweet, and
a subsequent fetch of the stored tweet yields a tweet whose live account
reference has that id and resolves in the store back to the same account. -/
theorem claim_C2 (st : Store) (fs accFs : List (String × JsVal)) (aid : Nat)
    (hacc : fieldD fs "account" = .num aid)
    (hsel : st.select "accounts" (.num aid) = .obj accFs)
    (hfresh : ∀ e ∈ st.tweets, entityIdMatch e (.num st.nextId) = false) :
    ∃ (st' : Store) (stored jv : JsVal),
      runApp .production st
        { method := "POST", path := .tweets, acceptVersion := none,
          contentType := some "application/json", accept := none,
          body := .obj fs } =
        ({ status := 201, body := .json jv }, st',
         [.logged, .versionGate, .contentGate, .dispatched, .handler]) ∧
      st'.select "tweets" (.num st.nextId) = stored ∧
      getProp stored "account" = some (.obj accFs) ∧
      tweetJSON stored = some jv ∧
      fieldD accFs "id" = .num aid ∧
      st'.select "accounts" (.num aid) = .obj accFs := by
  have hAccId : fieldD accFs "id" = .num aid := by
    cases hf : st.accounts.find? (fun e => entityIdMatch e (.num aid)) with
    | none =>
        have : Store.select st "accounts" (.num aid) = .undefined := by
          show (st.accounts.find? (fun e => entityIdMatch e (.num aid))).getD .undefined = _
          rw [hf]
          rfl
        rw [this] at hsel
        exact absurd hsel (by simp)
    | some e =>
        have hse : Store.select st "accounts" (.num aid) = e := by
          show (st.accounts.find? (fun e => entityIdMatch e (.num aid))).getD .undefined = _
          rw [hf]
          rfl
        have hm := List.find?_some hf
        rw [hse] at hsel
        rw [hsel] at hm
        cases hfid : fieldD accFs "id" with
        | num n =>
            simp only [entityIdMatch, hfid] at hm
            simp at hm
            rw [hm]
        | undefined =>
            simp only [entityIdMatch, hfid] at hm
            exact absurd hm (by decide)
        | str s =>
            simp only [entityIdMatch, hfid] at hm
            exact absurd hm (by decide)
        | bool b =>
            simp only [entityIdMatch, hfid] at hm
            exact absurd hm (by decide)
        | obj o =>
            simp only [entityIdMatch, hfid] at hm
            exact absurd hm (by decide)
        | arr a =>
            simp only [entityIdMatch, hfid] at hm
            exact absurd hm (by decide)
  have hid2 : fieldD (setKey (setKey fs "account" (.obj accFs)) "id"
      (.num st.nextId)) "id" = .num st.nextId := fieldD_setKey_self _ _ _
  have haccount : fieldD (setKey (setKey fs "account" (.obj accFs)) "id"
      (.num st.nextId)) "account" = .obj accFs := by
    rw [fieldD_setKey_ne _ _ _ _ (by decide), fieldD_setKey_self]
  have hmatch : entityIdMatch (.obj (setKey (setKey fs "account" (.obj accFs)) "id"
      (.num st.nextId))) (.num st.nextId) = true := by
    simp only [entityIdMatch, hid2]
    simp
  have hsel2 :
      Store.select
        { tweets := st.tweets ++
            [.obj (setKey (setKey fs "account" (.obj accFs)) "id" (.num st.nextId))],
          accounts := st.accounts, nextId := st.nextId + 1 }
        "tweets" (.num st.nextId) =
      .obj (setKey (setKey fs "account" (.obj accFs)) "id" (.num st.nextId)) := by
    show (List.find? (fun e => entityIdMatch e (JsVal.num st.nextId))
        (st.tweets ++
          [JsVal.obj (setKey (setKey fs "account" (JsVal.obj accFs)) "id"
            (JsVal.num st.nextId))])).getD JsVal.undefined =
      JsVal.obj (setKey (setKey fs "account" (JsVal.obj accFs)) "id" (JsVal.num st.nextId))
    rw [find?_append_last _ _ _ hfresh hmatch]
    rfl
  have htj : tweetJSON (.obj (setKey (setKey fs "account" (.obj accFs)) "id"
      (.num st.nextId))) =
      some (objAssign
        (.obj (setKey (setKey fs "account" (.obj accFs)) "id" (.num st.nextId)))
        [("href", .str ("http://localhost:3000/tweets/" ++ jsStr (.num st.nextId))),
         ("account", .num aid),
         ("accounthref",
           .str ("http://localhost:3000/accounts/" ++ jsStr (.num aid)))]) :=
    tweetJSON_obj _ accFs (.num st.nextId) (.num aid) hid2 haccount hAccId
  have hpost : postTweetsH st (.obj fs) =
      ({ tweets := st.tweets ++
          [.obj (setKey (setKey fs "account" (.obj accFs)) "id" (.num st.nextId))],
         accounts := st.accounts, nextId := st.nextId + 1 },
       .ok { status := 201,
             body := .json (objAssign
               (.obj (setKey (setKey fs "account" (.obj accFs)) "id" (.num st.nextId)))
               [("href", .str ("http://localhost:3000/tweets/" ++ jsStr (.num st.nextId))),
                ("account", .num aid),
                ("accounthref",
                  .str ("http://localhost:3000/accounts/" ++ jsStr (.num aid)))]) }) := by
    simp only [postTweetsH, getProp, hacc, hsel, setField, Store.insert]
    simp only [show (("tweets" == "tweets") = true) from rfl, if_true]
    rw [hsel2, htj]
  refine ⟨_, _, _, ?_, hsel2, ?_, htj, hAccId, ?_⟩
  · have hd : dispatch st
        { method := "POST", path := .tweets, acceptVersion := none,
          contentType := some "application/json", accept := none,
          body := .obj fs } = some (postTweetsH st (.obj fs)) := rfl
    exact runApp_handlerOk _ _ _ _ _ rfl rfl (hd.trans (congrArg some hpost))
  · show some (fieldD _ "account") = _
    rw [haccount]
  · show (st.accounts.find? (fun e => entityIdMatch e (.num aid))).getD .undefined = _
    exact hsel

/-- C10: `tweetJSON` is partial: a tweet whose resolved account is
`undefined` makes the `tweet.account.id` access throw.  In the POST /tweets
handler, when the account id in the body resolves to no stored account, the
projection of the stored tweet throws before any response body is produced:
the request ends in the generic error responder with status 500, never 201. -/
theorem claim_C10 (st : Store) (fs : List (String × JsVal)) (aid : Nat)
    (hacc : fieldD fs "account" = .num aid)
    (hnone : st.select "accounts" (.num aid) = .undefined)
    (hfresh : ∀ e ∈ st.tweets, entityIdMatch e (.num st.nextId) = false) :
    (∀ gs : List (String × JsVal), fieldD gs "account" = .undefined →
       tweetJSON (.obj gs) = none) ∧
    (runApp .production st
      { method := "POST", path := .tweets, acceptVersion := none,
        contentType := some "application/json", accept := none,
        body := .obj fs }).1 = errorResponse .production typeError ∧
    (runApp .production st
      { method := "POST", path := .tweets, acceptVersion := none,
        contentType := some "application/json", accept := none,
        body := .obj fs }).1.status = 500 ∧
    ¬ (runApp .production st
      { method := "POST", path := .tweets, acceptVersion := none,
        contentType := some "application/json", accept := none,
        body := .obj fs }).1.status = 201 := by
  have hpart : ∀ gs : List (String × JsVal), fieldD gs "account" = .undefined →
      tweetJSON (.obj gs) = none := by
    intro gs h
    have e2 : getProp (.obj gs) "account" = some JsVal.undefined := by
      show some (fieldD gs "account") = some JsVal.undefined
      rw [h]
    simp only [tweetJSON, e2, Option.bind_eq_bind, Option.some_bind]
    rfl
  have hid2 : fieldD (setKey (setKey fs "account" .undefined) "id"
      (.num st.nextId)) "id" = .num st.nextId := fieldD_setKey_self _ _ _
  have haccU : fieldD (setKey (setKey fs "account" .undefined) "id"
      (.num st.nextId)) "account" = .undefined := by
    rw [fieldD_setKey_ne _ _ _ _ (by decide), fieldD_setKey_self]
  have hmatch : entityIdMatch (.obj (setKey (setKey fs "account" .undefined) "id"
      (.num st.nextId))) (.num st.nextId) = true := by
    simp only [entityIdMatch, hid2]
    simp
  have hsel2 :
      Store.select
        { tweets := st.tweets ++
            [.obj (setKey (setKey fs "account" .undefined) "id" (.num st.nextId))],
          accounts := st.accounts, nextId := st.nextId + 1 }
        "tweets" (.num st.nextId) =
      .obj (setKey (setKey fs "account" .undefined) "id" (.num st.nextId)) := by
    show (List.find? (fun e => entityIdMatch e (JsVal.num st.nextId))
        (st.tweets ++
          [JsVal.obj (setKey (setKey fs "account" JsVal.undefined) "id"
            (JsVal.num st.nextId))])).getD JsVal.undefined =
      JsVal.obj (setKey (setKey fs "account" JsVal.undefined) "id" (JsVal.num st.nextId))
    rw [find?_append_last _ _ _ hfresh hmatch]
    rfl
  have htjN : tweetJSON (.obj (setKey (setKey fs "account" .undefined) "id"
      (.num st.nextId))) = none := hpart _ haccU
  have hpost : postTweetsH st (.obj fs) =
      ({ tweets := st.tweets ++
          [.obj (setKey (setKey fs "account" .undefined) "id" (.num st.nextId))],
         accounts := st.accounts, nextId := st.nextId + 1 },
       .error typeError) := by
    simp only [postTweetsH, getProp, hacc, hnone, setField, Store.insert]
    simp only [show (("tweets" == "tweets") = true) from rfl, if_true]
    rw [hsel2, htjN]
  have hd : dispatch st
      { method := "POST", path := .tweets, acceptVersion := none,
        contentType := some "application/json", accept := none,
        body := .obj fs } = some (postTweetsH st (.obj fs)) := rfl
  have hrun := runApp_handlerErr .production st _
    { method := "POST", path := .tweets, acceptVersion := none,
      contentType := some "application/json", accept := none,
      body := .obj fs } typeError rfl rfl (hd.trans (congrArg some hpost))
  refine ⟨hpart, ?_, ?_, ?_⟩
  · rw [hrun]
  · rw [hrun]
    rfl
  · rw [hrun]
    exact (by decide : ¬ (500 : Nat) = 201)

/-- C9 counterexample: the emitted link fields embed the fixed constant base
`http://localhost:3000` — the mappers take no configuration input, so the
base is hardcoded, not configurable. -/
theorem claim_C9_counterexample :
    tweetJSON (.obj [("id", .num 7), ("account", .obj [("id", .num 9)])]) =
      some (.obj [("id", .num 7), ("account", .num 9),
        ("href", .str "http://localhost:3000/tweets/7"),
        ("accounthref", .str "http://localhost:3000/accounts/9")]) ∧
    accountJSON (.obj [("id", .num 9), ("tweets", .arr [])]) =
      some (.obj [("id", .num 9), ("tweets", .arr []),
        ("tweetshref", .str "http://localhost:3000/accounts/9/tweets"),
        ("href", .str "http://localhost:3000/accounts/9")]) :=
  ⟨rfl, rfl⟩

/-- C9 (amended): every link field emitted by the representation mappers is
built from the hardcoded constant base `http://localhost:3000`; the mappers
are functions of the entity alone, with no configurable base. -/
theorem claim_C9 :
    (∀ fs accFs : List (String × JsVal), fieldD fs "account" = .obj accFs →
       ∃ r, tweetJSON (.obj fs) = some (.obj r) ∧
         fieldD r "href" =
           .str ("http://localhost:3000/tweets/" ++ jsStr (fieldD fs "id")) ∧
         fieldD r "accounthref" =
           .str ("http://localhost:3000/accounts/" ++ jsStr (fieldD accFs "id"))) ∧
    (∀ (fs : List (String × JsVal)) (ts js : List JsVal),
       fieldD fs "tweets" = .arr ts → mapJson tweetJSON ts = some js →
       ∃ r, accountJSON (.obj fs) = some (.obj r) ∧
         fieldD r "href" =
           .str ("http://localhost:3000/accounts/" ++ jsStr (fieldD fs "id")) ∧
         fieldD r "tweetshref" =
           .str ("http://localhost:3000/accounts/" ++ jsStr (fieldD fs "id") ++ "/tweets")) := by
  constructor
  · intro fs accFs hacc
    refine ⟨assignFields fs
        [("href", .str ("http://localhost:3000/tweets/" ++ jsStr (fieldD fs "id"))),
         ("account", fieldD accFs "id"),
         ("accounthref",
           .str ("http://localhost:3000/accounts/" ++ jsStr (fieldD accFs "id")))],
      tweetJSON_obj fs accFs _ _ rfl hacc rfl, ?_, ?_⟩
    · rw [assignFields_three, fieldD_setKey_ne _ _ _ _ (by decide),
        fieldD_setKey_ne _ _ _ _ (by decide), fieldD_setKey_self]
    · rw [assignFields_three, fieldD_setKey_self]
  · intro fs ts js hts hmap
    refine ⟨assignFields fs
        [("tweetshref",
           .str ("http://localhost:3000/accounts/" ++ jsStr (fieldD fs "id") ++ "/tweets")),
         ("tweets", .arr js),
         ("href", .str ("http://localhost:3000/accounts/" ++ jsStr (fieldD fs "id")))],
      ?_, ?_, ?_⟩
    · simp [accountJSON, getProp, hts, tweetCollectionJSON, hmap, objAssign]
    · rw [assignFields_three, fieldD_setKey_self]
    · rw [assignFields_three, fieldD_setKey_ne _ _ _ _ (by decide),
        fieldD_setKey_ne _ _ _ _ (by decide), fieldD_setKey_self]

/-! ## Witnesses: each hypothesis-bearing claim theorem evaluated at a
concrete input -/

/-- Witness for C1 at a concrete tweet with a live account object. -/
theorem claim_C1_witness :
    ∃ r, tweetJSON (.obj [("id", JsVal.num 101), ("text", JsVal.str "hi"),
        ("account", JsVal.obj [("id", JsVal.num 103)])]) = some (.obj r) ∧
      (∀ k, k ≠ "href" → k ≠ "account" → k ≠ "accounthref" →
        fieldD r k = fieldD [("id", JsVal.num 101), ("text", JsVal.str "hi"),
          ("account", JsVal.obj [("id", JsVal.num 103)])] k) ∧
      fieldD r "account" = fieldD [("id", JsVal.num 103)] "id" ∧
      fieldD r "href" = .str ("http://localhost:3000/tweets/" ++
        jsStr (fieldD [("id", JsVal.num 101), ("text", JsVal.str "hi"),
          ("account", JsVal.obj [("id", JsVal.num 103)])] "id")) ∧
      fieldD r "accounthref" = .str ("http://localhost:3000/accounts/" ++
        jsStr (fieldD [("id", JsVal.num 103)] "id")) :=
  claim_C1 _ _ rfl

/-- Witness for C2: post a tweet for stored account 103 into a store with
next fresh id 200. -/
theorem claim_C2_witness :
    ∃ (st' : Store) (stored jv : JsVal),
      runApp .production
        { tweets := [],
          accounts := [JsVal.obj [("id", JsVal.num 103), ("name", JsVal.str "al")]],
          nextId := 200 }
        { method := "POST", path := .tweets, acceptVersion := none,
          contentType := some "application/json", accept := none,
          body := .obj [("text", JsVal.str "hi"), ("account", JsVal.num 103)] } =
        ({ status := 201, body := .json jv }, st',
         [.logged, .versionGate, .contentGate, .dispatched, .handler]) ∧
      st'.select "tweets" (.num 200) = stored ∧
      getProp stored "account" =
        some (.obj [("id", JsVal.num 103), ("name", JsVal.str "al")]) ∧
      tweetJSON stored = some jv ∧
      fieldD [("id", JsVal.num 103), ("name", JsVal.str "al")] "id" = .num 103 ∧
      st'.select "accounts" (.num 103) =
        .obj [("id", JsVal.num 103), ("name", JsVal.str "al")] :=
  claim_C2 _ _ _ 103 rfl rfl (by simp)

/-- Witness for C3 (amended): the three branches at concrete requests — a
POST with text Content-Type gets 415, a GET with non-JSON Accept gets 406,
and a plain GET reaches the route layer. -/
theorem claim_C3_witness :
    (runApp .production { tweets := [], accounts := [], nextId := 0 }
      { method := "POST", path := .tweets, acceptVersion := none,
        contentType := some "text/plain", accept := none, body := .obj [] }).1 =
      { status := 415, body := .text "wrong Content-Type" } ∧
    (runApp .production { tweets := [], accounts := [], nextId := 0 }
      { method := "GET", path := .tweets, acceptVersion := none,
        contentType := none, accept := some "text/html", body := .obj [] }).1 =
      { status := 406,
        body := .text "response of application/json only supported, please accept this" } ∧
    Event.dispatched ∈ (runApp .production { tweets := [], accounts := [], nextId := 0 }
      { method := "GET", path := .tweets, acceptVersion := none,
        contentType := none, accept := none, body := .obj [] }).2.2 :=
  ⟨(claim_C3 .production { tweets := [], accounts := [], nextId := 0 }
      { method := "POST", path := .tweets, acceptVersion := none,
        contentType := some "text/plain", accept := none, body := .obj [] } rfl).1 rfl rfl,
   (claim_C3 .production { tweets := [], accounts := [], nextId := 0 }
      { method := "GET", path := .tweets, acceptVersion := none,
        contentType := none, accept := some "text/html", body := .obj [] } rfl).2.1
     (Or.inl rfl) rfl,
   (claim_C3 .production { tweets := [], accounts := [], nextId := 0 }
      { method := "GET", path := .tweets, acceptVersion := none,
        contentType := none, accept := none, body := .obj [] } rfl).2.2
     (Or.inl rfl) rfl⟩

/-- Witness for C4: `Accept-Version: 2.0` is refused with 406 even on an
unrouted path, and an absent header passes the gate. -/
theorem claim_C4_witness :
    (runApp .production { tweets := [], accounts := [], nextId := 0 }
      { method := "GET", path := .other "/x", acceptVersion := some "2.0",
        contentType := none, accept := none, body := .obj [] }).1 =
      { status := 406, body := .text "Accept-Version cannot be fulfilled" } ∧
    Event.contentGate ∈ (runApp .production { tweets := [], accounts := [], nextId := 0 }
      { method := "GET", path := .other "/x", acceptVersion := none,
        contentType := none, accept := none, body := .obj [] }).2.2 :=
  ⟨(claim_C4 .production { tweets := [], accounts := [], nextId := 0 }
      { method := "GET", path := .other "/x", acceptVersion := some "2.0",
        contentType := none, accept := none, body := .obj [] }).1
     ⟨"2.0", rfl, by decide⟩,
   (claim_C4 .production { tweets := [], accounts := [], nextId := 0 }
      { method := "GET", path := .other "/x", acceptVersion := none,
        contentType := none, accept := none, body := .obj [] }).2 (Or.inl rfl)⟩

/-- Witness for C5 at an account owning one tweet. -/
theorem claim_C5_witness :
    (∃ r, accountJSON (.obj [("id", JsVal.num 103),
        ("tweets", JsVal.arr [.obj [("id", JsVal.num 101),
          ("account", JsVal.obj [("id", JsVal.num 103)])]])]) = some (.obj r) ∧
      fieldD r "tweets" = .arr [.obj [("id", JsVal.num 101),
        ("account", JsVal.num 103),
        ("href", JsVal.str "http://localhost:3000/tweets/101"),
        ("accounthref", JsVal.str "http://localhost:3000/accounts/103")]] ∧
      ([JsVal.obj [("id", JsVal.num 101), ("account", JsVal.num 103),
        ("href", JsVal.str "http://localhost:3000/tweets/101"),
        ("accounthref", JsVal.str "http://localhost:3000/accounts/103")]] : List JsVal).length =
        ([JsVal.obj [("id", JsVal.num 101),
          ("account", JsVal.obj [("id", JsVal.num 103)])]] : List JsVal).length ∧
      ∀ i : Nat, ([JsVal.obj [("id", JsVal.num 101), ("account", JsVal.num 103),
        ("href", JsVal.str "http://localhost:3000/tweets/101"),
        ("accounthref", JsVal.str "http://localhost:3000/accounts/103")]] : List JsVal)[i]? =
        (([JsVal.obj [("id", JsVal.num 101),
          ("account", JsVal.obj [("id", JsVal.num 103)])]] : List JsVal)[i]?).bind tweetJSON) ∧
    tweetCollectionJSON (.arr [.obj [("id", JsVal.num 101),
        ("account", JsVal.obj [("id", JsVal.num 103)])]]) =
      some (.arr [.obj [("id", JsVal.num 101), ("account", JsVal.num 103),
        ("href", JsVal.str "http://localhost:3000/tweets/101"),
        ("accounthref", JsVal.str "http://localhost:3000/accounts/103")]]) ∧
    accountCollectionJSON (.arr [.obj [("id", JsVal.num 103), ("tweets", JsVal.arr [])]]) =
      some (.arr [.obj [("id", JsVal.num 103), ("tweets", JsVal.arr []),
        ("tweetshref", JsVal.str "http://localhost:3000/accounts/103/tweets"),
        ("href", JsVal.str "http://localhost:3000/accounts/103")]]) :=
  ⟨claim_C5.1 _ _ _ rfl rfl,
   (claim_C5.2.1 [.obj [("id", JsVal.num 101),
        ("account", JsVal.obj [("id", JsVal.num 103)])]]
      [.obj [("id", JsVal.num 101), ("account", JsVal.num 103),
        ("href", JsVal.str "http://localhost:3000/tweets/101"),
        ("accounthref", JsVal.str "http://localhost:3000/accounts/103")]] rfl).1,
   (claim_C5.2.2 [.obj [("id", JsVal.num 103), ("tweets", JsVal.arr [])]]
      [.obj [("id", JsVal.num 103), ("tweets", JsVal.arr []),
        ("tweetshref", JsVal.str "http://localhost:3000/accounts/103/tweets"),
        ("href", JsVal.str "http://localhost:3000/accounts/103")]] rfl).1⟩

/-- Witness for C6 on a genuinely cyclic heap (tweet 1 references account 0,
which lists tweet 1): both mappers only extend the heap. -/
theorem claim_C6_witness :
    (Heap.mk [[("id", HVal.num 103), ("tweets", HVal.arr [HVal.ref 1])],
      [("id", HVal.num 101), ("account", HVal.ref 0)]]).objs <+:
    (Heap.mk [[("id", HVal.num 103), ("tweets", HVal.arr [HVal.ref 1])],
      [("id", HVal.num 101), ("account", HVal.ref 0)],
      [("id", HVal.num 101), ("account", HVal.num 103),
       ("href", HVal.str "http://localhost:3000/tweets/101"),
       ("accounthref", HVal.str "http://localhost:3000/accounts/103")]]).objs ∧
    (Heap.mk [[("id", HVal.num 103), ("tweets", HVal.arr [HVal.ref 1])],
      [("id", HVal.num 101), ("account", HVal.ref 0)]]).objs <+:
    (Heap.mk [[("id", HVal.num 103), ("tweets", HVal.arr [HVal.ref 1])],
      [("id", HVal.num 101), ("account", HVal.ref 0)],
      [("id", HVal.num 101), ("account", HVal.num 103),
       ("href", HVal.str "http://localhost:3000/tweets/101"),
       ("accounthref", HVal.str "http://localhost:3000/accounts/103")],
      [("id", HVal.num 103), ("tweets", HVal.arr [HVal.ref 2]),
       ("tweetshref", HVal.str "http://localhost:3000/accounts/103/tweets"),
       ("href", HVal.str "http://localhost:3000/accounts/103")]]).objs :=
  ⟨(claim_C6.1 (Heap.mk [[("id", HVal.num 103), ("tweets", HVal.arr [HVal.ref 1])],
        [("id", HVal.num 101), ("account", HVal.ref 0)]]) (.ref 1)
      (Heap.mk [[("id", HVal.num 103), ("tweets", HVal.arr [HVal.ref 1])],
        [("id", HVal.num 101), ("account", HVal.ref 0)],
        [("id", HVal.num 101), ("account", HVal.num 103),
         ("href", HVal.str "http://localhost:3000/tweets/101"),
         ("accounthref", HVal.str "http://localhost:3000/accounts/103")]]) (.ref 2) rfl).1,
   (claim_C6.2 (Heap.mk [[("id", HVal.num 103), ("tweets", HVal.arr [HVal.ref 1])],
        [("id", HVal.num 101), ("account", HVal.ref 0)]]) (.ref 0)
      (Heap.mk [[("id", HVal.num 103), ("tweets", HVal.arr [HVal.ref 1])],
        [("id", HVal.num 101), ("account", HVal.ref 0)],
        [("id", HVal.num 101), ("account", HVal.num 103),
         ("href", HVal.str "http://localhost:3000/tweets/101"),
         ("accounthref", HVal.str "http://localhost:3000/accounts/103")],
        [("id", HVal.num 103), ("tweets", HVal.arr [HVal.ref 2]),
         ("tweetshref", HVal.str "http://localhost:3000/accounts/103/tweets"),
         ("href", HVal.str "http://localhost:3000/accounts/103")]]) (.ref 3) rfl).1⟩

/-- Witness for C7: an unrouted GET yields the 404 JSON error shape; the
responder takes the failure's status (418 here, 500 when absent) and keeps
`error.error` empty in production. -/
theorem claim_C7_witness :
    (runApp .production { tweets := [], accounts := [], nextId := 0 }
      { method := "GET", path := .other "/unknown", acceptVersion := none,
        contentType := none, accept := none, body := .obj [] }).1 =
      { status := 404,
        body := .json (.obj [("error", .obj
          [("message", .str "Not Found"), ("error", .obj [])])]) } ∧
    (errorResponse .production { message := "boom", status := some 418, stack := "tr" }).status =
      418 ∧
    errorResponse .production { message := "boom", status := none, stack := "tr" } =
      { status := 500,
        body := .json (.obj [("error", .obj
          [("message", .str "boom"), ("error", .obj [])])]) } :=
  ⟨claim_C7.1 { tweets := [], accounts := [], nextId := 0 }
      { method := "GET", path := .other "/unknown", acceptVersion := none,
        contentType := none, accept := none, body := .obj [] } rfl rfl rfl,
   claim_C7.2.1 .production { message := "boom", status := some 418, stack := "tr" },
   claim_C7.2.2 { message := "boom", status := none, stack := "tr" }⟩

/-- Witness for C8: a version-blocked request runs only the logger and the
version gate. -/
theorem claim_C8_witness :
    (runApp .production { tweets := [], accounts := [], nextId := 0 }
      { method := "GET", path := .tweets, acceptVersion := some "3.0",
        contentType := none, accept := none, body := .obj [] }).2.2 =
      [Event.logged, Event.versionGate] := by
  obtain ⟨tail, h1, h2, _⟩ := claim_C8 .production
    { tweets := [], accounts := [], nextId := 0 }
    { method := "GET", path := .tweets, acceptVersion := some "3.0",
      contentType := none, accept := none, body := .obj [] }
  rw [h1, h2 rfl]

/-- Witness for C9 (amended) at concrete entities. -/
theorem claim_C9_witness :
    (∃ r, tweetJSON (.obj [("id", JsVal.num 101),
        ("account", JsVal.obj [("id", JsVal.num 103)])]) = some (.obj r) ∧
      fieldD r "href" = .str ("http://localhost:3000/tweets/" ++
        jsStr (fieldD [("id", JsVal.num 101),
          ("account", JsVal.obj [("id", JsVal.num 103)])] "id")) ∧
      fieldD r "accounthref" = .str ("http://localhost:3000/accounts/" ++
        jsStr (fieldD [("id", JsVal.num 103)] "id"))) ∧
    (∃ r, accountJSON (.obj [("id", JsVal.num 103), ("tweets", JsVal.arr [])]) =
        some (.obj r) ∧
      fieldD r "href" = .str ("http://localhost:3000/accounts/" ++
        jsStr (fieldD [("id", JsVal.num 103), ("tweets", JsVal.arr [])] "id")) ∧
      fieldD r "tweetshref" = .str ("http://localhost:3000/accounts/" ++
        jsStr (fieldD [("id", JsVal.num 103), ("tweets", JsVal.arr [])] "id") ++ "/tweets")) :=
  ⟨claim_C9.1 [("id", JsVal.num 101), ("account", JsVal.obj [("id", JsVal.num 103)])]
     [("id", JsVal.num 103)] rfl,
   claim_C9.2 [("id", JsVal.num 103), ("tweets", JsVal.arr [])] [] [] rfl rfl⟩

/-- Witness for C10: posting a tweet whose account id (999) is not in the
store ends with status 500. -/
theorem claim_C10_witness :
    (runApp .production { tweets := [], accounts := [], nextId := 0 }
      { method := "POST", path := .tweets, acceptVersion := none,
        contentType := some "application/json", accept := none,
        body := .obj [("text", JsVal.str "hi"), ("account", JsVal.num 999)] }).1.status =
      500 :=
  (claim_C10 { tweets := [], accounts := [], nextId := 0 }
    [("text", JsVal.str "hi"), ("account", JsVal.num 999)] 999 rfl rfl (by simp)).2.2.1

end TweetApp
